import Mathlib

/-!
Shallow embedding of `core/lib/cloudfront-distribution-helper.ts` from
aws-solutions-constructs.  Synthesized CloudFormation resources are modelled
as explicit Lean structures; construct creation is modelled by threading an
explicit `WorldState` whose `trace` records every resource-creating call in
order, so that "exactly one X is created" and "Y happens after Z" become
statements about the trace suffix added by a call.  Helpers that the file
imports but that are not among the sources (`DefaultS3Props`, the two
`DefaultCloudFrontWebDistribution*Props` resolvers, `overrideProps`,
`deployLambdaFunction`) are modelled from the specification and say so in
their doc comments.
-/

namespace CfHelper

/-- Entry of a cfn-nag `rules_to_suppress` list: a rule id plus a
human-readable justification. -/
structure RuleToSuppress where
  ruleId : String
  reason : String
  deriving DecidableEq

/-- Value assigned to `cfnOptions.metadata` by this helper: a cfn-nag block
holding the suppressed rules. -/
structure CfnNagMetadata where
  rules_to_suppress : List RuleToSuppress
  deriving DecidableEq

/-- Options of a synthesized (low-level) resource.  Besides `metadata` a
second, untouched field (`condition`) is kept so that frame claims about
"everything else unchanged" are not vacuous. -/
structure CfnOptions where
  metadata : Option CfnNagMetadata
  condition : Option String
  deriving DecidableEq

/-- Modelled from the spec: `DefaultS3Props` lives in `s3-bucket-defaults.ts`,
which is not among the sources; §4.1 describes it as hardened default bucket
settings (encryption, blocked public access, versioning). -/
structure S3Props where
  encryption : Bool
  blockPublicAccess : Bool
  versioned : Bool
  deriving DecidableEq

def DefaultS3Props : S3Props :=
  { encryption := true, blockPublicAccess := true, versioned := true }

/-- Synthesized `AWS::S3::Bucket` resource (`CfnBucket`):  its construction
props, the property overrides added through `addPropertyOverride`, and its
`cfnOptions`. -/
structure CfnBucket where
  props : S3Props
  propertyOverrides : List (String × String)
  cfnOptions : CfnOptions
  deriving DecidableEq

/-- Principal of a policy statement; the source attaches a
`CanonicalUserPrincipal`, never an ARN principal, which this type keeps
distinguishable. -/
inductive Principal where
  | canonicalUser (userId : String)
  | arnPrincipal (arn : String)
  deriving DecidableEq

structure PolicyStatement where
  actions : List String
  resources : List String
  principals : List Principal
  deriving DecidableEq

/-- Synthesized `AWS::S3::BucketPolicy` resource. -/
structure CfnBucketPolicy where
  statements : List PolicyStatement
  cfnOptions : CfnOptions
  deriving DecidableEq

/-- High-level `s3.Bucket` construct: identity, its synthesized resource, and
its (lazily created) bucket policy. -/
structure Bucket where
  bucketId : Nat
  resource : CfnBucket
  policy : Option CfnBucketPolicy
  deriving DecidableEq

def Bucket.arnForObjects (b : Bucket) (keyPattern : String) : String :=
  "arn:aws:s3:::bucket-" ++ toString b.bucketId ++ "/" ++ keyPattern

/-- Synthesized `AWS::Lambda::Function` resource: construction triple, the
environment block the framework synthesized (possibly empty), and the paths
removed through `addDeletionOverride`. -/
structure CfnFunction where
  code : String
  runtime : String
  handler : String
  environment : Option (List (String × String))
  deletionOverrides : List String
  deriving DecidableEq

/-- Environment block left in the synthesized template once deletion
overrides are applied. -/
def CfnFunction.effectiveEnvironment (f : CfnFunction) :
    Option (List (String × String)) :=
  if ("Properties.Environment") ∈ f.deletionOverrides then none
  else f.environment

structure LambdaFunction where
  funcId : Nat
  resource : CfnFunction
  deriving DecidableEq

/-- Immutable `lambda.Version` wrapping a function. -/
structure LambdaVersion where
  versionId : Nat
  lambdaFunc : LambdaFunction
  deriving DecidableEq

def LambdaFunction.addDeletionOverride (f : LambdaFunction) (path : String) :
    LambdaFunction :=
  { f with resource :=
      { f.resource with
          deletionOverrides := f.resource.deletionOverrides ++ [path] } }

/-- Synthesized `CfnCloudFrontOriginAccessIdentity` resource. -/
structure CfnOriginAccessIdentity where
  oaiId : Nat
  comment : String
  deriving DecidableEq

def CfnOriginAccessIdentity.ref (o : CfnOriginAccessIdentity) : String :=
  "oai-" ++ toString o.oaiId

def CfnOriginAccessIdentity.attrS3CanonicalUserId
    (o : CfnOriginAccessIdentity) : String :=
  "canonical-user-" ++ toString o.oaiId

/-- Imported `cloudfront.OriginAccessIdentity` (an import by name, not a new
resource). -/
structure OriginAccessIdentity where
  originAccessIdentityName : String
  deriving DecidableEq

def OriginAccessIdentity.fromOriginAccessIdentityName (name : String) :
    OriginAccessIdentity :=
  { originAccessIdentityName := name }

structure RestApi where
  url : String
  deriving DecidableEq

/-- Origin descriptor of a distribution: an API endpoint or a bucket accessed
through an origin-access identity. -/
inductive OriginSource where
  | apiEndpoint (url : String)
  | s3OriginSource (bucketId : Nat) (originAccessIdentity : OriginAccessIdentity)
  deriving DecidableEq

/-- Logging configuration of a distribution; the `bucket` field is optional
because the caller-supplied object may omit it. -/
structure LoggingConfig where
  bucket : Option Bucket
  includeCookies : Option Bool
  deriving DecidableEq

/-- Model of the framework's `CloudFrontWebDistributionProps`, restricted to
the fields this helper's logic touches plus passthrough defaults.  Caller
overrides use the same shape; a field absent from the caller's object is
`none`. -/
structure CloudFrontWebDistributionProps where
  originSource : Option OriginSource
  loggingConfig : Option LoggingConfig
  defaultBehaviorEdgeLambdas : Option (List LambdaVersion)
  defaultRootObject : Option String
  priceClass : Option String
  viewerProtocolPolicy : Option String
  deriving DecidableEq

/-- Caller object with every top-level property absent. -/
def emptyProps : CloudFrontWebDistributionProps :=
  { originSource := none, loggingConfig := none,
    defaultBehaviorEdgeLambdas := none, defaultRootObject := none,
    priceClass := none, viewerProtocolPolicy := none }

/-- Modelled from the spec: `overrideProps` (imported from `./utils`) is not
among the sources.  §4.4: a shallow merge — every top-level property present
in the caller object replaces the corresponding default property entirely (no
recursive merge of nested objects); properties absent from the caller object
retain their default value. -/
def overrideProps (defaults overrides : CloudFrontWebDistributionProps) :
    CloudFrontWebDistributionProps where
  originSource := overrides.originSource.orElse fun _ => defaults.originSource
  loggingConfig := overrides.loggingConfig.orElse fun _ => defaults.loggingConfig
  defaultBehaviorEdgeLambdas :=
    overrides.defaultBehaviorEdgeLambdas.orElse fun _ =>
      defaults.defaultBehaviorEdgeLambdas
  defaultRootObject :=
    overrides.defaultRootObject.orElse fun _ => defaults.defaultRootObject
  priceClass := overrides.priceClass.orElse fun _ => defaults.priceClass
  viewerProtocolPolicy :=
    overrides.viewerProtocolPolicy.orElse fun _ => defaults.viewerProtocolPolicy

/-- Synthesized `AWS::CloudFront::Distribution` resource
(`node.defaultChild`). -/
structure CfnDistribution where
  distributionConfig : CloudFrontWebDistributionProps
  cfnOptions : CfnOptions
  deriving DecidableEq

/-- High-level `cloudfront.CloudFrontWebDistribution` construct. -/
structure CloudFrontWebDistribution where
  distId : Nat
  cfprops : CloudFrontWebDistributionProps
  defaultChild : CfnDistribution
  deriving DecidableEq

/-- Resource-creating calls, recorded in order with the fresh resource id and
the construct id string used at the call site. -/
inductive Event where
  | createBucket (rid : Nat) (constructId : String)
  | createLambdaFunction (rid : Nat) (constructId : String)
  | createLambdaVersion (rid : Nat) (constructId : String)
  | createOriginAccessIdentity (rid : Nat) (constructId : String)
  | createDistribution (rid : Nat) (constructId : String)
  | appendBucketPolicy (bucketId : Nat) (stmt : PolicyStatement)
  deriving DecidableEq

/-- State threaded through a call: the ordered creation trace, the next fresh
resource id, and the environment block the external framework would
synthesize on a freshly deployed function (possibly an empty block
`some []`), kept ambient so the unconditional-removal claim can quantify
over it. -/
structure WorldState where
  trace : List Event
  nextId : Nat
  frameworkEnv : Option (List (String × String))
  deriving DecidableEq

def WorldState.bump (w : WorldState) : WorldState :=
  { w with nextId := w.nextId + 1 }

def WorldState.emit (w : WorldState) (e : Event) : WorldState :=
  { w with trace := w.trace ++ [e] }

/-- Creation of a high-level `s3.Bucket`: allocates an id, records the event,
and starts with no property overrides, no metadata and no policy. -/
def newBucket (constructId : String) (props : S3Props) (w : WorldState) :
    Bucket × WorldState :=
  ({ bucketId := w.nextId
     resource :=
       { props := props, propertyOverrides := []
         cfnOptions := { metadata := none, condition := none } }
     policy := none },
   w.bump.emit (Event.createBucket w.nextId constructId))

def Bucket.addPropertyOverride (b : Bucket) (path value : String) : Bucket :=
  { b with resource :=
      { b.resource with
          propertyOverrides := b.resource.propertyOverrides ++ [(path, value)] } }

def Bucket.setResourceMetadata (b : Bucket) (m : CfnNagMetadata) : Bucket :=
  { b with resource :=
      { b.resource with cfnOptions :=
          { b.resource.cfnOptions with metadata := some m } } }

/-- Appending to the bucket's resource policy (`addToResourcePolicy`): the
framework creates the `BucketPolicy` on first use, afterwards it appends. -/
def Bucket.addToResourcePolicy (b : Bucket) (stmt : PolicyStatement)
    (w : WorldState) : Bucket × WorldState :=
  let policy : CfnBucketPolicy :=
    match b.policy with
    | none =>
        { statements := [stmt]
          cfnOptions := { metadata := none, condition := none } }
    | some p => { p with statements := p.statements ++ [stmt] }
  ({ b with policy := some policy },
   w.emit (Event.appendBucketPolicy b.bucketId stmt))

def Bucket.setPolicyMetadata (b : Bucket) (m : CfnNagMetadata) : Bucket :=
  { b with policy := b.policy.map fun p =>
      { p with cfnOptions := { p.cfnOptions with metadata := some m } } }

structure LambdaProps where
  code : String
  runtime : String
  handler : String
  deriving DecidableEq

/-- Modelled from the spec: `deployLambdaFunction` (imported from
`./lambda-helper`) is not among the sources; §6 describes it as a helper that
provisions a compute resource from a code/runtime/handler triple.  The
environment block the framework synthesizes on the new function is taken from
the ambient `frameworkEnv` (possibly an empty block), so that its
unconditional removal can be stated for every such block. -/
def deployLambdaFunction (props : LambdaProps) (constructId : String)
    (w : WorldState) : LambdaFunction × WorldState :=
  ({ funcId := w.nextId
     resource :=
       { code := props.code, runtime := props.runtime
         handler := props.handler, environment := w.frameworkEnv
         deletionOverrides := [] } },
   w.bump.emit (Event.createLambdaFunction w.nextId constructId))

def newLambdaVersion (constructId : String) (lambdaFunc : LambdaFunction)
    (w : WorldState) : LambdaVersion × WorldState :=
  ({ versionId := w.nextId, lambdaFunc := lambdaFunc },
   w.bump.emit (Event.createLambdaVersion w.nextId constructId))

def newCfnOriginAccessIdentity (constructId comment : String)
    (w : WorldState) : CfnOriginAccessIdentity × WorldState :=
  ({ oaiId := w.nextId, comment := comment },
   w.bump.emit (Event.createOriginAccessIdentity w.nextId constructId))

/-- Instantiation of the distribution: the merged props become both the
construct's configuration and the synthesized resource's configuration; the
synthesized resource starts without metadata. -/
def newCloudFrontWebDistribution (constructId : String)
    (cfprops : CloudFrontWebDistributionProps) (w : WorldState) :
    CloudFrontWebDistribution × WorldState :=
  ({ distId := w.nextId, cfprops := cfprops
     defaultChild :=
       { distributionConfig := cfprops
         cfnOptions := { metadata := none, condition := none } } },
   w.bump.emit (Event.createDistribution w.nextId constructId))

def w70Reason : String :=
  "Since the distribution uses the CloudFront domain name, CloudFront automatically sets the security policy to TLSv1 regardless of the value of MinimumProtocolVersion"

/-- Translation of `updateSecurityPolicy`: replaces the synthesized
distribution resource's metadata wholesale with the single W70 cfn-nag
suppression and hands the distribution back. -/
def updateSecurityPolicy (cfDistribution : CloudFrontWebDistribution) :
    CloudFrontWebDistribution :=
  let m : CfnNagMetadata :=
    { rules_to_suppress := [{ ruleId := "W70", reason := w70Reason }] }
  let co : CfnOptions :=
    { cfDistribution.defaultChild.cfnOptions with metadata := some m }
  let dc : CfnDistribution :=
    { cfDistribution.defaultChild with cfnOptions := co }
  { cfDistribution with defaultChild := dc }

def w35w51Reason : String :=
  "This S3 bucket is used as the access logging bucket for CloudFront Distribution"

/-- Translation of `createCloudfrontLoggingBucket`: a bucket with the default
hardened props, its `AccessControl` overridden to `LogDeliveryWrite`, and the
W35/W51 suppressions on its synthesized resource. -/
def createCloudfrontLoggingBucket (w : WorldState) : Bucket × WorldState :=
  let created := newBucket ("CloudfrontLoggingBucket") DefaultS3Props w
  let loggingBucket :=
    ((created.1.addPropertyOverride ("AccessControl") ("LogDeliveryWrite")).setResourceMetadata
      ({ rules_to_suppress :=
          [{ ruleId := "W35", reason := w35w51Reason },
           { ruleId := "W51", reason := w35w51Reason }] }))
  (loggingBucket, created.2)

def edgeLambdaCode : String :=
  "exports.handler = (event, context, callback) => \x7b const response = event.Records[0].cf.response; const headers = response.headers; headers['x-xss-protection'] = [ \x7b key: 'X-XSS-Protection', value: '1; mode=block' \x7d ]; headers['x-frame-options'] = [ \x7b key: 'X-Frame-Options', value: 'DENY' \x7d ]; headers['x-content-type-options'] = [ \x7b key: 'X-Content-Type-Options', value: 'nosniff' \x7d ]; headers['strict-transport-security'] = [ \x7b key: 'Strict-Transport-Security', value: 'max-age=63072000; includeSubdomains; preload' \x7d ]; headers['referrer-policy'] = [ \x7b key: 'Referrer-Policy', value: 'same-origin' \x7d ]; headers['content-security-policy'] = [ \x7b key: 'Content-Security-Policy', value: \"default-src 'none'; base-uri 'self'; img-src 'self'; script-src 'self'; style-src 'self' https:; object-src 'none'; frame-ancestors 'none'; font-src 'self' https:; form-action 'self'; manifest-src 'self'; connect-src 'self'\" \x7d ]; callback(null, response); \x7d;"

/-- Translation of `defaultLambdaEdgeFunction`: deploys the fixed-body header
function and unconditionally deletes `Properties.Environment` from the
synthesized resource. -/
def defaultLambdaEdgeFunction (w : WorldState) : LambdaFunction × WorldState :=
  let deployed := deployLambdaFunction
    ({ code := edgeLambdaCode, runtime := "NODEJS_12_X"
       handler := "index.handler" })
    ("SetHttpSecurityHeaders") w
  (deployed.1.addDeletionOverride ("Properties.Environment"), deployed.2)

/-- JavaScript value reaching the loosely typed `httpSecurityHeaders`
argument (declared `boolean?`, but the `any`-typed surroundings admit any
value, and the claims name `0` and the empty string). -/
inductive JSVal where
  | undefined
  | boolean (b : Bool)
  | number (n : Int)
  | jsString (s : String)
  deriving DecidableEq

def JSVal.truthy : JSVal → Bool
  | .undefined => false
  | .boolean b => b
  | .number n => n != 0
  | .jsString s => s != ""

/-- API variant, line 124: `httpSecurityHeaders ? httpSecurityHeaders :
true`. -/
def resolveHttpSecurityHeadersApi (httpSecurityHeaders : JSVal) : JSVal :=
  if httpSecurityHeaders.truthy then httpSecurityHeaders
  else JSVal.boolean true

/-- Storage variant, line 173: `(httpSecurityHeaders !== undefined &&
httpSecurityHeaders === false) ? false : true`; `===` is strict, so only the
boolean `false` disables. -/
def resolveHttpSecurityHeadersS3 (httpSecurityHeaders : JSVal) : Bool :=
  if httpSecurityHeaders != JSVal.undefined &&
      httpSecurityHeaders == JSVal.boolean false then false
  else true

/-- Modelled from the spec:
`DefaultCloudFrontWebDistributionForApiGatewayProps` (from
`cloudfront-distribution-defaults.ts`) is not among the sources.  §4.3: it
produces a complete configuration from the origin, the logging destination,
the header-injection flag and an optional edge-function version, attaching
the version to the default behavior's edge-function list exactly when header
injection is enabled; all remaining fields are fixed defaults. -/
def DefaultCloudFrontWebDistributionForApiGatewayProps (apiEndPoint : RestApi)
    (loggingBucket : Option Bucket) (httpSecurityHeaders : Bool)
    (edgeLambdaVersion : Option LambdaVersion) :
    CloudFrontWebDistributionProps where
  originSource := some (OriginSource.apiEndpoint apiEndPoint.url)
  loggingConfig := some ({ bucket := loggingBucket, includeCookies := none })
  defaultBehaviorEdgeLambdas :=
    some (if httpSecurityHeaders then edgeLambdaVersion.toList else [])
  defaultRootObject := some ("index.html")
  priceClass := some ("PriceClass_100")
  viewerProtocolPolicy := some ("redirect-to-https")

/-- Modelled from the spec: `DefaultCloudFrontWebDistributionForS3Props`
(from `cloudfront-distribution-defaults.ts`) is not among the sources; same
contract as the API-variant resolver with a bucket-plus-identity origin. -/
def DefaultCloudFrontWebDistributionForS3Props (sourceBucket : Bucket)
    (loggingBucket : Option Bucket) (oai : OriginAccessIdentity)
    (httpSecurityHeaders : Bool) (edgeLambdaVersion : Option LambdaVersion) :
    CloudFrontWebDistributionProps where
  originSource := some (OriginSource.s3OriginSource sourceBucket.bucketId oai)
  loggingConfig := some ({ bucket := loggingBucket, includeCookies := none })
  defaultBehaviorEdgeLambdas :=
    some (if httpSecurityHeaders then edgeLambdaVersion.toList else [])
  defaultRootObject := some ("index.html")
  priceClass := some ("PriceClass_100")
  viewerProtocolPolicy := some ("redirect-to-https")

/-- Translation of `CloudFrontDistributionForApiGateway` (lines 119-151): the
state-passing result is the distribution together with the final world
state. -/
def CloudFrontDistributionForApiGateway (apiEndPoint : RestApi)
    (cloudFrontDistributionProps : Option CloudFrontWebDistributionProps)
    (httpSecurityHeaders : JSVal) (w : WorldState) :
    CloudFrontWebDistribution × WorldState :=
  let hsh := resolveHttpSecurityHeadersApi httpSecurityHeaders
  let step1 : Option LambdaVersion × WorldState :=
    if hsh.truthy then
      let f := defaultLambdaEdgeFunction w
      let v := newLambdaVersion ("SetHttpSecurityHeadersVersion") f.1 f.2
      (some v.1, v.2)
    else (none, w)
  let edgeLambdaVersion := step1.1
  let w1 := step1.2
  let step2 : CloudFrontWebDistributionProps × WorldState :=
    match cloudFrontDistributionProps with
    | some props =>
      match props.loggingConfig with
      | some lc =>
          (DefaultCloudFrontWebDistributionForApiGatewayProps apiEndPoint
            lc.bucket hsh.truthy edgeLambdaVersion, w1)
      | none =>
          let lb := createCloudfrontLoggingBucket w1
          (DefaultCloudFrontWebDistributionForApiGatewayProps apiEndPoint
            (some lb.1) hsh.truthy edgeLambdaVersion, lb.2)
    | none =>
        let lb := createCloudfrontLoggingBucket w1
        (DefaultCloudFrontWebDistributionForApiGatewayProps apiEndPoint
          (some lb.1) hsh.truthy edgeLambdaVersion, lb.2)
  let cfprops :=
    match cloudFrontDistributionProps with
    | some props => overrideProps step2.1 props
    | none => step2.1
  let d := newCloudFrontWebDistribution ("CloudFrontDistribution") cfprops
    step2.2
  (updateSecurityPolicy d.1, d.2)

def f16Reason : String :=
  "Public website bucket policy requires a wildcard principal"

/-- Translation of `CloudFrontDistributionForS3` (lines 153-216).  The source
mutates `sourceBucket` through `addToResourcePolicy` and the metadata patch,
so the result carries the updated source bucket alongside the distribution
and the final world state. -/
def CloudFrontDistributionForS3 (sourceBucket : Bucket)
    (cloudFrontDistributionProps : Option CloudFrontWebDistributionProps)
    (httpSecurityHeaders : JSVal) (w : WorldState) :
    CloudFrontWebDistribution × Bucket × WorldState :=
  let o := newCfnOriginAccessIdentity ("CloudFrontOriginAccessIdentity")
    ("Access S3 bucket content only through CloudFront") w
  let cfnOrigAccessId := o.1
  let w0 := o.2
  let oaiImported :=
    OriginAccessIdentity.fromOriginAccessIdentityName cfnOrigAccessId.ref
  let hsh := resolveHttpSecurityHeadersS3 httpSecurityHeaders
  let step1 : Option LambdaVersion × WorldState :=
    if hsh then
      let f := defaultLambdaEdgeFunction w0
      let v := newLambdaVersion ("SetHttpSecurityHeadersVersion") f.1 f.2
      (some v.1, v.2)
    else (none, w0)
  let edgeLambdaVersion := step1.1
  let w1 := step1.2
  let step2 : CloudFrontWebDistributionProps × WorldState :=
    match cloudFrontDistributionProps with
    | some props =>
      match props.loggingConfig with
      | some lc =>
          (DefaultCloudFrontWebDistributionForS3Props sourceBucket lc.bucket
            oaiImported hsh edgeLambdaVersion, w1)
      | none =>
          let lb := createCloudfrontLoggingBucket w1
          (DefaultCloudFrontWebDistributionForS3Props sourceBucket
            (some lb.1) oaiImported hsh edgeLambdaVersion, lb.2)
    | none =>
        let lb := createCloudfrontLoggingBucket w1
        (DefaultCloudFrontWebDistributionForS3Props sourceBucket
          (some lb.1) oaiImported hsh edgeLambdaVersion, lb.2)
  let cfprops :=
    match cloudFrontDistributionProps with
    | some props => overrideProps step2.1 props
    | none => step2.1
  let d := newCloudFrontWebDistribution ("CloudFrontDistribution") cfprops
    step2.2
  let cfDistribution := updateSecurityPolicy d.1
  let stmt : PolicyStatement :=
    { actions := [("s3:GetObject")]
      resources := [sourceBucket.arnForObjects ("*")]
      principals :=
        [Principal.canonicalUser cfnOrigAccessId.attrS3CanonicalUserId] }
  let sb := sourceBucket.addToResourcePolicy stmt d.2
  let sourceBucketUpdated := sb.1.setPolicyMetadata
    ({ rules_to_suppress := [{ ruleId := "F16", reason := f16Reason }] })
  (cfDistribution, sourceBucketUpdated, sb.2)

/-! Observations on traces and results used to state the claims. -/

def isCreateLoggingBucketEvent : Event → Bool
  | .createBucket _ constructId => constructId == "CloudfrontLoggingBucket"
  | _ => false

def isCreateLambdaFunctionEvent : Event → Bool
  | .createLambdaFunction _ _ => true
  | _ => false

def isCreateLambdaVersionEvent : Event → Bool
  | .createLambdaVersion _ _ => true
  | _ => false

def isCreateOriginAccessIdentityEvent : Event → Bool
  | .createOriginAccessIdentity _ _ => true
  | _ => false

def isCreateDistributionEvent : Event → Bool
  | .createDistribution _ _ => true
  | _ => false

def isAppendBucketPolicyEvent : Event → Bool
  | .appendBucketPolicy _ _ => true
  | _ => false

def countEvents (p : Event → Bool) (t : List Event) : Nat :=
  (t.filter p).length

/-- Events a call starting in state `w` and ending in state `wFinal` added to
the trace. -/
def newEvents (w wFinal : WorldState) : List Event :=
  wFinal.trace.drop w.trace.length

/-- Holds when no policy statement is appended before the first distribution
creation in the trace. -/
def appendsOnlyAfterDistribution (t : List Event) : Bool :=
  (t.takeWhile fun e => !(isCreateDistributionEvent e)).all
    fun e => !(isAppendBucketPolicyEvent e)

/-- Access-log destination bucket recorded in the distribution's final merged
configuration. -/
def distributionLoggingBucket (d : CloudFrontWebDistribution) : Option Bucket :=
  (d.cfprops.loggingConfig.getD
    { bucket := none, includeCookies := none }).bucket

/-- Storage-variant invocation supplying only the source bucket: no caller
configuration, hence no logging configuration. -/
def s3DefaultRun (sourceBucket : Bucket) (hsh : JSVal) (w : WorldState) :
    CloudFrontWebDistribution × Bucket × WorldState :=
  CloudFrontDistributionForS3 sourceBucket none hsh w

/-! Concrete inputs used by counterexamples and witnesses. -/

def w0 : WorldState := { trace := [], nextId := 0, frameworkEnv := none }

/-- Start state in which the framework would synthesize an empty environment
block on a fresh function. -/
def wEmptyEnv : WorldState :=
  { trace := [], nextId := 1, frameworkEnv := some [] }

def w1 : WorldState := { trace := [], nextId := 1, frameworkEnv := none }

def restApiE : RestApi := { url := "https://api.example.com/prod" }

def bucketB : Bucket :=
  { bucketId := 0
    resource :=
      { props := DefaultS3Props, propertyOverrides := []
        cfnOptions := { metadata := none, condition := none } }
    policy := none }

def bucketM : Bucket := { bucketB with bucketId := 7 }

/-- Caller object whose `loggingConfig` is present but carries no `bucket`
field. -/
def propsWithEmptyLoggingConfig : CloudFrontWebDistributionProps :=
  { emptyProps with
      loggingConfig := some { bucket := none, includeCookies := none } }

/-- Caller object supplying `bucketM` as the access-log destination. -/
def propsWithLoggingBucketM : CloudFrontWebDistributionProps :=
  { emptyProps with
      loggingConfig := some { bucket := some bucketM, includeCookies := none } }

def mergeDefaults : CloudFrontWebDistributionProps :=
  DefaultCloudFrontWebDistributionForApiGatewayProps restApiE none true none

/-- Caller object overriding only `loggingConfig`, with a nested object that
differs from the default in every sub-field. -/
def mergeOverride : CloudFrontWebDistributionProps :=
  { emptyProps with
      loggingConfig := some { bucket := none, includeCookies := some true } }

/-! Shared lemmas. -/

/-- Line 124 makes the API variant's header flag truthy for every input: a
truthy input is kept, every falsy input is replaced by `true`. -/
lemma resolveHttpSecurityHeadersApi_truthy (hsh : JSVal) :
    (resolveHttpSecurityHeadersApi hsh).truthy = true := by
  unfold resolveHttpSecurityHeadersApi
  cases h : hsh.truthy with
  | true => simp [h]
  | false => simp [h, JSVal.truthy]

lemma resolveHttpSecurityHeadersS3_of_ne (hsh : JSVal)
    (h : hsh ≠ JSVal.boolean false) :
    resolveHttpSecurityHeadersS3 hsh = true := by
  unfold resolveHttpSecurityHeadersS3
  cases hsh with
  | undefined => rfl
  | boolean b =>
      cases b with
      | false => exact absurd rfl h
      | true => rfl
  | number n => simp
  | jsString s => simp

lemma newEvents_of_append (w wFinal : WorldState) (l : List Event)
    (h : wFinal.trace = w.trace ++ l) : newEvents w wFinal = l := by
  rw [newEvents, h]
  exact List.drop_left _ _

lemma api_trace_of_no_loggingConfig (apiEndPoint : RestApi)
    (props : Option CloudFrontWebDistributionProps) (hsh : JSVal)
    (w : WorldState) (hp : (props.bind fun p => p.loggingConfig) = none) :
    (CloudFrontDistributionForApiGateway apiEndPoint props hsh w).2.trace
      = w.trace ++
        [Event.createLambdaFunction w.nextId ("SetHttpSecurityHeaders"),
         Event.createLambdaVersion (w.nextId+1) ("SetHttpSecurityHeadersVersion"),
         Event.createBucket (w.nextId+2) ("CloudfrontLoggingBucket"),
         Event.createDistribution (w.nextId+3) ("CloudFrontDistribution")] := by
  have h := resolveHttpSecurityHeadersApi_truthy hsh
  cases props with
  | none =>
      simp [CloudFrontDistributionForApiGateway, h, defaultLambdaEdgeFunction,
        deployLambdaFunction, newLambdaVersion, createCloudfrontLoggingBucket,
        newBucket, newCloudFrontWebDistribution, WorldState.bump,
        WorldState.emit, updateSecurityPolicy]
  | some p =>
      simp only [Option.some_bind] at hp
      simp [CloudFrontDistributionForApiGateway, h, hp,
        defaultLambdaEdgeFunction, deployLambdaFunction, newLambdaVersion,
        createCloudfrontLoggingBucket, newBucket,
        newCloudFrontWebDistribution, WorldState.bump, WorldState.emit,
        updateSecurityPolicy]

lemma api_trace_of_loggingConfig (apiEndPoint : RestApi)
    (p : CloudFrontWebDistributionProps) (lc : LoggingConfig) (hsh : JSVal)
    (w : WorldState) (hp : p.loggingConfig = some lc) :
    (CloudFrontDistributionForApiGateway apiEndPoint (some p) hsh w).2.trace
      = w.trace ++
        [Event.createLambdaFunction w.nextId ("SetHttpSecurityHeaders"),
         Event.createLambdaVersion (w.nextId+1) ("SetHttpSecurityHeadersVersion"),
         Event.createDistribution (w.nextId+2) ("CloudFrontDistribution")] := by
  have h := resolveHttpSecurityHeadersApi_truthy hsh
  simp [CloudFrontDistributionForApiGateway, h, hp,
    defaultLambdaEdgeFunction, deployLambdaFunction, newLambdaVersion,
    newCloudFrontWebDistribution, WorldState.bump, WorldState.emit,
    updateSecurityPolicy]

lemma s3_trace_of_no_loggingConfig_enabled (sourceBucket : Bucket)
    (props : Option CloudFrontWebDistributionProps) (hsh : JSVal)
    (w : WorldState) (hr : resolveHttpSecurityHeadersS3 hsh = true)
    (hp : (props.bind fun p => p.loggingConfig) = none) :
    (CloudFrontDistributionForS3 sourceBucket props hsh w).2.2.trace
      = w.trace ++
        [Event.createOriginAccessIdentity w.nextId ("CloudFrontOriginAccessIdentity"),
         Event.createLambdaFunction (w.nextId+1) ("SetHttpSecurityHeaders"),
         Event.createLambdaVersion (w.nextId+2) ("SetHttpSecurityHeadersVersion"),
         Event.createBucket (w.nextId+3) ("CloudfrontLoggingBucket"),
         Event.createDistribution (w.nextId+4) ("CloudFrontDistribution"),
         Event.appendBucketPolicy sourceBucket.bucketId
           { actions := [("s3:GetObject")]
             resources := [sourceBucket.arnForObjects ("*")]
             principals := [Principal.canonicalUser
               ("canonical-user-" ++ toString w.nextId)] }] := by
  cases props with
  | none =>
      simp [CloudFrontDistributionForS3, hr, defaultLambdaEdgeFunction,
        deployLambdaFunction, newLambdaVersion, createCloudfrontLoggingBucket,
        newBucket, newCfnOriginAccessIdentity, newCloudFrontWebDistribution,
        WorldState.bump, WorldState.emit, updateSecurityPolicy,
        Bucket.addToResourcePolicy, Bucket.setPolicyMetadata,
        CfnOriginAccessIdentity.attrS3CanonicalUserId, Bucket.arnForObjects]
  | some p =>
      simp only [Option.some_bind] at hp
      simp [CloudFrontDistributionForS3, hr, hp, defaultLambdaEdgeFunction,
        deployLambdaFunction, newLambdaVersion, createCloudfrontLoggingBucket,
        newBucket, newCfnOriginAccessIdentity, newCloudFrontWebDistribution,
        WorldState.bump, WorldState.emit, updateSecurityPolicy,
        Bucket.addToResourcePolicy, Bucket.setPolicyMetadata,
        CfnOriginAccessIdentity.attrS3CanonicalUserId, Bucket.arnForObjects]

lemma s3_trace_of_loggingConfig_enabled (sourceBucket : Bucket)
    (p : CloudFrontWebDistributionProps) (lc : LoggingConfig) (hsh : JSVal)
    (w : WorldState) (hr : resolveHttpSecurityHeadersS3 hsh = true)
    (hp : p.loggingConfig = some lc) :
    (CloudFrontDistributionForS3 sourceBucket (some p) hsh w).2.2.trace
      = w.trace ++
        [Event.createOriginAccessIdentity w.nextId ("CloudFrontOriginAccessIdentity"),
         Event.createLambdaFunction (w.nextId+1) ("SetHttpSecurityHeaders"),
         Event.createLambdaVersion (w.nextId+2) ("SetHttpSecurityHeadersVersion"),
         Event.createDistribution (w.nextId+3) ("CloudFrontDistribution"),
         Event.appendBucketPolicy sourceBucket.bucketId
           { actions := [("s3:GetObject")]
             resources := [sourceBucket.arnForObjects ("*")]
             principals := [Principal.canonicalUser
               ("canonical-user-" ++ toString w.nextId)] }] := by
  simp [CloudFrontDistributionForS3, hr, hp, defaultLambdaEdgeFunction,
    deployLambdaFunction, newLambdaVersion, newCfnOriginAccessIdentity,
    newCloudFrontWebDistribution, WorldState.bump, WorldState.emit,
    updateSecurityPolicy, Bucket.addToResourcePolicy, Bucket.setPolicyMetadata,
    CfnOriginAccessIdentity.attrS3CanonicalUserId, Bucket.arnForObjects]

lemma s3_trace_of_no_loggingConfig_disabled (sourceBucket : Bucket)
    (props : Option CloudFrontWebDistributionProps) (hsh : JSVal)
    (w : WorldState) (hr : resolveHttpSecurityHeadersS3 hsh = false)
    (hp : (props.bind fun p => p.loggingConfig) = none) :
    (CloudFrontDistributionForS3 sourceBucket props hsh w).2.2.trace
      = w.trace ++
        [Event.createOriginAccessIdentity w.nextId ("CloudFrontOriginAccessIdentity"),
         Event.createBucket (w.nextId+1) ("CloudfrontLoggingBucket"),
         Event.createDistribution (w.nextId+2) ("CloudFrontDistribution"),
         Event.appendBucketPolicy sourceBucket.bucketId
           { actions := [("s3:GetObject")]
             resources := [sourceBucket.arnForObjects ("*")]
             principals := [Principal.canonicalUser
               ("canonical-user-" ++ toString w.nextId)] }] := by
  cases props with
  | none =>
      simp [CloudFrontDistributionForS3, hr, createCloudfrontLoggingBucket,
        newBucket, newCfnOriginAccessIdentity, newCloudFrontWebDistribution,
        WorldState.bump, WorldState.emit, updateSecurityPolicy,
        Bucket.addToResourcePolicy, Bucket.setPolicyMetadata,
        CfnOriginAccessIdentity.attrS3CanonicalUserId, Bucket.arnForObjects]
  | some p =>
      simp only [Option.some_bind] at hp
      simp [CloudFrontDistributionForS3, hr, hp, createCloudfrontLoggingBucket,
        newBucket, newCfnOriginAccessIdentity, newCloudFrontWebDistribution,
        WorldState.bump, WorldState.emit, updateSecurityPolicy,
        Bucket.addToResourcePolicy, Bucket.setPolicyMetadata,
        CfnOriginAccessIdentity.attrS3CanonicalUserId, Bucket.arnForObjects]

lemma s3_trace_of_loggingConfig_disabled (sourceBucket : Bucket)
    (p : CloudFrontWebDistributionProps) (lc : LoggingConfig) (hsh : JSVal)
    (w : WorldState) (hr : resolveHttpSecurityHeadersS3 hsh = false)
    (hp : p.loggingConfig = some lc) :
    (CloudFrontDistributionForS3 sourceBucket (some p) hsh w).2.2.trace
      = w.trace ++
        [Event.createOriginAccessIdentity w.nextId ("CloudFrontOriginAccessIdentity"),
         Event.createDistribution (w.nextId+1) ("CloudFrontDistribution"),
         Event.appendBucketPolicy sourceBucket.bucketId
           { actions := [("s3:GetObject")]
             resources := [sourceBucket.arnForObjects ("*")]
             principals := [Principal.canonicalUser
               ("canonical-user-" ++ toString w.nextId)] }] := by
  simp [CloudFrontDistributionForS3, hr, hp, newCfnOriginAccessIdentity,
    newCloudFrontWebDistribution, WorldState.bump, WorldState.emit,
    updateSecurityPolicy, Bucket.addToResourcePolicy, Bucket.setPolicyMetadata,
    CfnOriginAccessIdentity.attrS3CanonicalUserId, Bucket.arnForObjects]

/-! Claim C1. -/

/-- Claim C1, counterexample: invoking the API variant with the falsy value
`false` for `httpSecurityHeaders` still creates an edge function and still
attaches an edge-function version to the default behavior, so the claimed
"zero edge functions created and nothing attached" is false: line 124 turns
every falsy input into `true`. -/
theorem c1_counterexample :
    ¬ (countEvents isCreateLambdaFunctionEvent
         (newEvents w0 (CloudFrontDistributionForApiGateway restApiE none
           (JSVal.boolean false) w0).2) = 0 ∧
       ((CloudFrontDistributionForApiGateway restApiE none (JSVal.boolean false)
           w0).1.cfprops.defaultBehaviorEdgeLambdas.getD []) = []) := by
  decide

/-- Claim C1 (amended): in the API variant `httpSecurityHeaders` cannot
disable header injection — for every invocation, falsy values included,
exactly one edge function is created, and whenever the caller does not itself
override the default-behavior edge-function list, the default behavior
carries exactly one attached edge-function version. -/
theorem c1_api_edge_function_always_created (apiEndPoint : RestApi)
    (props : Option CloudFrontWebDistributionProps) (hsh : JSVal)
    (w : WorldState)
    (hov : (props.bind fun p => p.defaultBehaviorEdgeLambdas) = none) :
    countEvents isCreateLambdaFunctionEvent
      (newEvents w (CloudFrontDistributionForApiGateway apiEndPoint props hsh
        w).2) = 1 ∧
    ((CloudFrontDistributionForApiGateway apiEndPoint props hsh
        w).1.cfprops.defaultBehaviorEdgeLambdas.getD []).length = 1 := by
  have htruthy := resolveHttpSecurityHeadersApi_truthy hsh
  constructor
  · cases props with
    | none =>
        rw [newEvents_of_append _ _ _
          (api_trace_of_no_loggingConfig apiEndPoint none hsh w rfl)]
        simp [countEvents, isCreateLambdaFunctionEvent]
    | some p =>
        cases hlc : p.loggingConfig with
        | none =>
            rw [newEvents_of_append _ _ _
              (api_trace_of_no_loggingConfig apiEndPoint (some p) hsh w
                (by simp [hlc]))]
            simp [countEvents, isCreateLambdaFunctionEvent]
        | some lc =>
            rw [newEvents_of_append _ _ _
              (api_trace_of_loggingConfig apiEndPoint p lc hsh w hlc)]
            simp [countEvents, isCreateLambdaFunctionEvent]
  · cases props with
    | none =>
        simp [CloudFrontDistributionForApiGateway, htruthy,
          DefaultCloudFrontWebDistributionForApiGatewayProps,
          updateSecurityPolicy, newCloudFrontWebDistribution,
          defaultLambdaEdgeFunction, deployLambdaFunction, newLambdaVersion,
          createCloudfrontLoggingBucket, newBucket]
    | some p =>
        simp only [Option.some_bind] at hov
        cases hlc : p.loggingConfig with
        | none =>
            simp [CloudFrontDistributionForApiGateway, htruthy, hlc, hov,
              overrideProps, DefaultCloudFrontWebDistributionForApiGatewayProps,
              updateSecurityPolicy, newCloudFrontWebDistribution,
              defaultLambdaEdgeFunction, deployLambdaFunction, newLambdaVersion,
              createCloudfrontLoggingBucket, newBucket]
        | some lc =>
            simp [CloudFrontDistributionForApiGateway, htruthy, hlc, hov,
              overrideProps, DefaultCloudFrontWebDistributionForApiGatewayProps,
              updateSecurityPolicy, newCloudFrontWebDistribution,
              defaultLambdaEdgeFunction, deployLambdaFunction, newLambdaVersion]

/-- Claim C1 (amended), witness: concrete falsy input `0`, no caller
overrides. -/
theorem c1_api_edge_function_always_created_witness :
    countEvents isCreateLambdaFunctionEvent
      (newEvents w0 (CloudFrontDistributionForApiGateway restApiE none
        (JSVal.number 0) w0).2) = 1 ∧
    ((CloudFrontDistributionForApiGateway restApiE none (JSVal.number 0)
        w0).1.cfprops.defaultBehaviorEdgeLambdas.getD []).length = 1 :=
  c1_api_edge_function_always_created restApiE none (JSVal.number 0) w0 rfl

/-! Claim C2. -/

/-- Claim C2, counterexample: a caller object whose `loggingConfig` is
present but has no `bucket` field is an invocation without a caller-supplied
logging destination, yet zero logging buckets are created (lines 134/181 test
only whether `loggingConfig` itself is present), refuting the claimed
"exactly one". -/
theorem c2_counterexample :
    ¬ (countEvents isCreateLoggingBucketEvent
        (newEvents w0 (CloudFrontDistributionForApiGateway restApiE
          (some propsWithEmptyLoggingConfig) JSVal.undefined w0).2) = 1) := by
  decide

/-- Claim C2 (amended): for every invocation of either entry point in which
the caller supplies no `loggingConfig` object at all, exactly one logging
bucket is created and the distribution's logging bucket carries the single
property override setting `AccessControl` to `LogDeliveryWrite`; when a
`loggingConfig` object is present — even one without a `bucket` — no logging
bucket is created. -/
theorem c2_logging_bucket_creation :
    (∀ (apiEndPoint : RestApi) (props : Option CloudFrontWebDistributionProps)
        (hsh : JSVal) (w : WorldState),
      (props.bind fun p => p.loggingConfig) = none →
      countEvents isCreateLoggingBucketEvent
        (newEvents w (CloudFrontDistributionForApiGateway apiEndPoint props hsh
          w).2) = 1 ∧
      ((distributionLoggingBucket
          (CloudFrontDistributionForApiGateway apiEndPoint props hsh w).1).map
        fun b => b.resource.propertyOverrides)
        = some [(("AccessControl"), ("LogDeliveryWrite"))]) ∧
    (∀ (sourceBucket : Bucket) (props : Option CloudFrontWebDistributionProps)
        (hsh : JSVal) (w : WorldState),
      (props.bind fun p => p.loggingConfig) = none →
      countEvents isCreateLoggingBucketEvent
        (newEvents w (CloudFrontDistributionForS3 sourceBucket props hsh
          w).2.2) = 1 ∧
      ((distributionLoggingBucket
          (CloudFrontDistributionForS3 sourceBucket props hsh w).1).map
        fun b => b.resource.propertyOverrides)
        = some [(("AccessControl"), ("LogDeliveryWrite"))]) ∧
    (∀ (apiEndPoint : RestApi) (p : CloudFrontWebDistributionProps)
        (lc : LoggingConfig) (hsh : JSVal) (w : WorldState),
      p.loggingConfig = some lc →
      countEvents isCreateLoggingBucketEvent
        (newEvents w (CloudFrontDistributionForApiGateway apiEndPoint (some p)
          hsh w).2) = 0) ∧
    (∀ (sourceBucket : Bucket) (p : CloudFrontWebDistributionProps)
        (lc : LoggingConfig) (hsh : JSVal) (w : WorldState),
      p.loggingConfig = some lc →
      countEvents isCreateLoggingBucketEvent
        (newEvents w (CloudFrontDistributionForS3 sourceBucket (some p) hsh
          w).2.2) = 0) := by
  refine ⟨?_, ?_, ?_, ?_⟩
  · intro apiEndPoint props hsh w hp
    have htruthy := resolveHttpSecurityHeadersApi_truthy hsh
    constructor
    · rw [newEvents_of_append _ _ _
        (api_trace_of_no_loggingConfig apiEndPoint props hsh w hp)]
      simp [countEvents, isCreateLoggingBucketEvent]
    · cases props with
      | none =>
          simp [CloudFrontDistributionForApiGateway, htruthy,
            distributionLoggingBucket,
            DefaultCloudFrontWebDistributionForApiGatewayProps,
            updateSecurityPolicy, newCloudFrontWebDistribution,
            defaultLambdaEdgeFunction, deployLambdaFunction, newLambdaVersion,
            createCloudfrontLoggingBucket, newBucket,
            Bucket.addPropertyOverride, Bucket.setResourceMetadata]
      | some p =>
          simp only [Option.some_bind] at hp
          simp [CloudFrontDistributionForApiGateway, htruthy, hp,
            distributionLoggingBucket, overrideProps,
            DefaultCloudFrontWebDistributionForApiGatewayProps,
            updateSecurityPolicy, newCloudFrontWebDistribution,
            defaultLambdaEdgeFunction, deployLambdaFunction, newLambdaVersion,
            createCloudfrontLoggingBucket, newBucket,
            Bucket.addPropertyOverride, Bucket.setResourceMetadata]
  · intro sourceBucket props hsh w hp
    cases hr : resolveHttpSecurityHeadersS3 hsh with
    | true =>
        constructor
        · rw [newEvents_of_append _ _ _
            (s3_trace_of_no_loggingConfig_enabled sourceBucket props hsh w hr
              hp)]
          simp [countEvents, isCreateLoggingBucketEvent]
        · cases props with
          | none =>
              simp [CloudFrontDistributionForS3, hr,
                distributionLoggingBucket,
                DefaultCloudFrontWebDistributionForS3Props,
                updateSecurityPolicy, newCloudFrontWebDistribution,
                newCfnOriginAccessIdentity,
                defaultLambdaEdgeFunction, deployLambdaFunction,
                newLambdaVersion, createCloudfrontLoggingBucket, newBucket,
                Bucket.addPropertyOverride, Bucket.setResourceMetadata]
          | some p =>
              simp only [Option.some_bind] at hp
              simp [CloudFrontDistributionForS3, hr, hp,
                distributionLoggingBucket, overrideProps,
                DefaultCloudFrontWebDistributionForS3Props,
                updateSecurityPolicy, newCloudFrontWebDistribution,
                newCfnOriginAccessIdentity,
                defaultLambdaEdgeFunction, deployLambdaFunction,
                newLambdaVersion, createCloudfrontLoggingBucket, newBucket,
                Bucket.addPropertyOverride, Bucket.setResourceMetadata]
    | false =>
        constructor
        · rw [newEvents_of_append _ _ _
            (s3_trace_of_no_loggingConfig_disabled sourceBucket props hsh w hr
              hp)]
          simp [countEvents, isCreateLoggingBucketEvent]
        · cases props with
          | none =>
              simp [CloudFrontDistributionForS3, hr,
                distributionLoggingBucket,
                DefaultCloudFrontWebDistributionForS3Props,
                updateSecurityPolicy, newCloudFrontWebDistribution,
                newCfnOriginAccessIdentity,
                createCloudfrontLoggingBucket, newBucket,
                Bucket.addPropertyOverride, Bucket.setResourceMetadata]
          | some p =>
              simp only [Option.some_bind] at hp
              simp [CloudFrontDistributionForS3, hr, hp,
                distributionLoggingBucket, overrideProps,
                DefaultCloudFrontWebDistributionForS3Props,
                updateSecurityPolicy, newCloudFrontWebDistribution,
                newCfnOriginAccessIdentity,
                createCloudfrontLoggingBucket, newBucket,
                Bucket.addPropertyOverride, Bucket.setResourceMetadata]
  · intro apiEndPoint p lc hsh w hp
    rw [newEvents_of_append _ _ _
      (api_trace_of_loggingConfig apiEndPoint p lc hsh w hp)]
    simp [countEvents, isCreateLoggingBucketEvent]
  · intro sourceBucket p lc hsh w hp
    cases hr : resolveHttpSecurityHeadersS3 hsh with
    | true =>
        rw [newEvents_of_append _ _ _
          (s3_trace_of_loggingConfig_enabled sourceBucket p lc hsh w hr hp)]
        simp [countEvents, isCreateLoggingBucketEvent]
    | false =>
        rw [newEvents_of_append _ _ _
          (s3_trace_of_loggingConfig_disabled sourceBucket p lc hsh w hr hp)]
        simp [countEvents, isCreateLoggingBucketEvent]

/-- Claim C2 (amended), witness: both entry points at concrete inputs with no
caller configuration, and both entry points at a caller configuration whose
`loggingConfig` is present without a `bucket` field, where zero logging
buckets are created. -/
theorem c2_logging_bucket_creation_witness :
    (countEvents isCreateLoggingBucketEvent
      (newEvents w0 (CloudFrontDistributionForApiGateway restApiE none
        JSVal.undefined w0).2) = 1 ∧
     ((distributionLoggingBucket
        (CloudFrontDistributionForApiGateway restApiE none JSVal.undefined
          w0).1).map fun b => b.resource.propertyOverrides)
      = some [(("AccessControl"), ("LogDeliveryWrite"))]) ∧
    (countEvents isCreateLoggingBucketEvent
      (newEvents w0 (CloudFrontDistributionForS3 bucketB none
        JSVal.undefined w0).2.2) = 1 ∧
     ((distributionLoggingBucket
        (CloudFrontDistributionForS3 bucketB none JSVal.undefined
          w0).1).map fun b => b.resource.propertyOverrides)
      = some [(("AccessControl"), ("LogDeliveryWrite"))]) ∧
    countEvents isCreateLoggingBucketEvent
      (newEvents w0 (CloudFrontDistributionForApiGateway restApiE
        (some propsWithEmptyLoggingConfig) JSVal.undefined w0).2) = 0 ∧
    countEvents isCreateLoggingBucketEvent
      (newEvents w0 (CloudFrontDistributionForS3 bucketB
        (some propsWithEmptyLoggingConfig) JSVal.undefined w0).2.2) = 0 :=
  ⟨c2_logging_bucket_creation.1 restApiE none JSVal.undefined w0 rfl,
   c2_logging_bucket_creation.2.1 bucketB none JSVal.undefined w0 rfl,
   c2_logging_bucket_creation.2.2.1 restApiE propsWithEmptyLoggingConfig
     { bucket := none, includeCookies := none } JSVal.undefined w0 rfl,
   c2_logging_bucket_creation.2.2.2 bucketB propsWithEmptyLoggingConfig
     { bucket := none, includeCookies := none } JSVal.undefined w0 rfl⟩

/-! Claims C3 and C4, on the shallow merge. -/

/-- Claim C3: for every default configuration and caller object, each
top-level property present in the caller object ends up in the merged
configuration exactly as the caller supplied it (wholesale, also for nested
objects such as `loggingConfig`), and each top-level property absent from the
caller object retains its default value. -/
theorem c3_merge_overwrite (d o : CloudFrontWebDistributionProps) :
    (∀ v, o.originSource = some v → (overrideProps d o).originSource = some v) ∧
    (o.originSource = none → (overrideProps d o).originSource = d.originSource) ∧
    (∀ v, o.loggingConfig = some v → (overrideProps d o).loggingConfig = some v) ∧
    (o.loggingConfig = none → (overrideProps d o).loggingConfig = d.loggingConfig) ∧
    (∀ v, o.defaultBehaviorEdgeLambdas = some v →
      (overrideProps d o).defaultBehaviorEdgeLambdas = some v) ∧
    (o.defaultBehaviorEdgeLambdas = none →
      (overrideProps d o).defaultBehaviorEdgeLambdas
        = d.defaultBehaviorEdgeLambdas) ∧
    (∀ v, o.defaultRootObject = some v →
      (overrideProps d o).defaultRootObject = some v) ∧
    (o.defaultRootObject = none →
      (overrideProps d o).defaultRootObject = d.defaultRootObject) ∧
    (∀ v, o.priceClass = some v → (overrideProps d o).priceClass = some v) ∧
    (o.priceClass = none → (overrideProps d o).priceClass = d.priceClass) ∧
    (∀ v, o.viewerProtocolPolicy = some v →
      (overrideProps d o).viewerProtocolPolicy = some v) ∧
    (o.viewerProtocolPolicy = none →
      (overrideProps d o).viewerProtocolPolicy = d.viewerProtocolPolicy) := by
  refine ⟨fun v h => ?_, fun h => ?_, fun v h => ?_, fun h => ?_, fun v h => ?_,
    fun h => ?_, fun v h => ?_, fun h => ?_, fun v h => ?_, fun h => ?_,
    fun v h => ?_, fun h => ?_⟩ <;>
  simp [overrideProps, h]

/-- Claim C3, witness: a caller object overriding only `loggingConfig` with a
nested object differing from the default in every sub-field replaces it
wholesale, while `priceClass` keeps its default. -/
theorem c3_merge_overwrite_witness :
    (overrideProps mergeDefaults mergeOverride).loggingConfig
      = some { bucket := none, includeCookies := some true } ∧
    (overrideProps mergeDefaults mergeOverride).priceClass
      = mergeDefaults.priceClass :=
  ⟨(c3_merge_overwrite mergeDefaults mergeOverride).2.2.1
      { bucket := none, includeCookies := some true } rfl,
   (c3_merge_overwrite mergeDefaults mergeOverride).2.2.2.2.2.2.2.2.2.1 rfl⟩

/-- Claim C4: merging the empty caller object onto any configuration — in
particular onto either resolver's defaults — returns that configuration
unchanged, field for field. -/
theorem c4_empty_override_is_identity (d : CloudFrontWebDistributionProps) :
    overrideProps d emptyProps = d := rfl

/-! Claim C5. -/

/-- Claim C5: a storage-variant invocation with a source bucket and no
caller configuration (a) sets the distribution's origin to the source bucket
through the single freshly created origin-access identity, (b) creates one
logging bucket distinct from the source bucket, (c) appends to the source
bucket's resource policy one statement allowing `s3:GetObject` on all its
objects with the created identity's canonical user — not its ARN — as
principal, (d) places exactly the single justified F16 suppression on the
bucket-policy resource, and (e) performs the policy append only after the
distribution has been created. -/
theorem c5_storage_scenario (sourceBucket : Bucket) (hsh : JSVal)
    (w : WorldState) (hid : sourceBucket.bucketId < w.nextId) :
    (s3DefaultRun sourceBucket hsh w).1.cfprops.originSource
      = some (OriginSource.s3OriginSource sourceBucket.bucketId
          (OriginAccessIdentity.fromOriginAccessIdentityName
            ("oai-" ++ toString w.nextId))) ∧
    countEvents isCreateOriginAccessIdentityEvent
      (newEvents w (s3DefaultRun sourceBucket hsh w).2.2) = 1 ∧
    countEvents isCreateLoggingBucketEvent
      (newEvents w (s3DefaultRun sourceBucket hsh w).2.2) = 1 ∧
    (distributionLoggingBucket (s3DefaultRun sourceBucket hsh w).1).map
        Bucket.bucketId ≠ some sourceBucket.bucketId ∧
    (distributionLoggingBucket (s3DefaultRun sourceBucket hsh w).1).isSome
      = true ∧
    (∀ pol, (s3DefaultRun sourceBucket hsh w).2.1.policy = some pol →
      pol.statements.getLast? = some
        { actions := [("s3:GetObject")]
          resources := [sourceBucket.arnForObjects ("*")]
          principals := [Principal.canonicalUser
            ("canonical-user-" ++ toString w.nextId)] } ∧
      pol.cfnOptions.metadata = some ({ rules_to_suppress :=
        [{ ruleId := "F16", reason := f16Reason }] })) ∧
    ((s3DefaultRun sourceBucket hsh w).2.1.policy).isSome = true ∧
    appendsOnlyAfterDistribution
      (newEvents w (s3DefaultRun sourceBucket hsh w).2.2) = true ∧
    countEvents isAppendBucketPolicyEvent
      (newEvents w (s3DefaultRun sourceBucket hsh w).2.2) = 1 := by
  cases hr : resolveHttpSecurityHeadersS3 hsh with
  | true =>
      rw [s3DefaultRun, newEvents_of_append _ _ _
        (s3_trace_of_no_loggingConfig_enabled sourceBucket none hsh w hr rfl)]
      refine ⟨?_, ?_, ?_, ?_, ?_, ?_, ?_, ?_, ?_⟩
      · simp [CloudFrontDistributionForS3, hr,
          DefaultCloudFrontWebDistributionForS3Props,
          updateSecurityPolicy, newCloudFrontWebDistribution,
          newCfnOriginAccessIdentity, CfnOriginAccessIdentity.ref,
          OriginAccessIdentity.fromOriginAccessIdentityName,
          defaultLambdaEdgeFunction, deployLambdaFunction, newLambdaVersion,
          createCloudfrontLoggingBucket, newBucket]
      · simp [countEvents, isCreateOriginAccessIdentityEvent]
      · simp [countEvents, isCreateLoggingBucketEvent]
      · simp only [ne_eq]
        simp [CloudFrontDistributionForS3, hr, distributionLoggingBucket,
          DefaultCloudFrontWebDistributionForS3Props,
          updateSecurityPolicy, newCloudFrontWebDistribution,
          newCfnOriginAccessIdentity, defaultLambdaEdgeFunction,
          deployLambdaFunction, newLambdaVersion,
          createCloudfrontLoggingBucket, newBucket,
          Bucket.addPropertyOverride, Bucket.setResourceMetadata,
          WorldState.bump, WorldState.emit]
        omega
      · simp [CloudFrontDistributionForS3, hr, distributionLoggingBucket,
          DefaultCloudFrontWebDistributionForS3Props,
          updateSecurityPolicy, newCloudFrontWebDistribution,
          newCfnOriginAccessIdentity, defaultLambdaEdgeFunction,
          deployLambdaFunction, newLambdaVersion,
          createCloudfrontLoggingBucket, newBucket]
      · intro pol hpolmem
        cases hpol : sourceBucket.policy with
        | none =>
            simp [CloudFrontDistributionForS3, hr, hpol,
              Bucket.addToResourcePolicy, Bucket.setPolicyMetadata,
              CfnOriginAccessIdentity.attrS3CanonicalUserId,
              newCfnOriginAccessIdentity, Bucket.arnForObjects,
              updateSecurityPolicy, newCloudFrontWebDistribution,
              defaultLambdaEdgeFunction, deployLambdaFunction,
              newLambdaVersion, createCloudfrontLoggingBucket, newBucket,
              DefaultCloudFrontWebDistributionForS3Props] at hpolmem
            subst hpolmem
            simp [Bucket.arnForObjects]
        | some oldPol =>
            simp [CloudFrontDistributionForS3, hr, hpol,
              Bucket.addToResourcePolicy, Bucket.setPolicyMetadata,
              CfnOriginAccessIdentity.attrS3CanonicalUserId,
              newCfnOriginAccessIdentity, Bucket.arnForObjects,
              updateSecurityPolicy, newCloudFrontWebDistribution,
              defaultLambdaEdgeFunction, deployLambdaFunction,
              newLambdaVersion, createCloudfrontLoggingBucket, newBucket,
              DefaultCloudFrontWebDistributionForS3Props] at hpolmem
            subst hpolmem
            simp [Bucket.arnForObjects, List.getLast?_concat]
      · cases hpol : sourceBucket.policy <;>
        simp [CloudFrontDistributionForS3, hr, hpol,
          Bucket.addToResourcePolicy, Bucket.setPolicyMetadata,
          newCfnOriginAccessIdentity, updateSecurityPolicy,
          newCloudFrontWebDistribution, defaultLambdaEdgeFunction,
          deployLambdaFunction, newLambdaVersion,
          createCloudfrontLoggingBucket, newBucket]
      · simp [appendsOnlyAfterDistribution, isCreateDistributionEvent,
          isAppendBucketPolicyEvent, isCreateLoggingBucketEvent,
          isCreateOriginAccessIdentityEvent, isCreateLambdaFunctionEvent,
          isCreateLambdaVersionEvent]
      · simp [countEvents, isAppendBucketPolicyEvent]
  | false =>
      rw [s3DefaultRun, newEvents_of_append _ _ _
        (s3_trace_of_no_loggingConfig_disabled sourceBucket none hsh w hr rfl)]
      refine ⟨?_, ?_, ?_, ?_, ?_, ?_, ?_, ?_, ?_⟩
      · simp [CloudFrontDistributionForS3, hr,
          DefaultCloudFrontWebDistributionForS3Props,
          updateSecurityPolicy, newCloudFrontWebDistribution,
          newCfnOriginAccessIdentity, CfnOriginAccessIdentity.ref,
          OriginAccessIdentity.fromOriginAccessIdentityName,
          createCloudfrontLoggingBucket, newBucket]
      · simp [countEvents, isCreateOriginAccessIdentityEvent]
      · simp [countEvents, isCreateLoggingBucketEvent]
      · simp only [ne_eq]
        simp [CloudFrontDistributionForS3, hr, distributionLoggingBucket,
          DefaultCloudFrontWebDistributionForS3Props,
          updateSecurityPolicy, newCloudFrontWebDistribution,
          newCfnOriginAccessIdentity, createCloudfrontLoggingBucket, newBucket,
          Bucket.addPropertyOverride, Bucket.setResourceMetadata,
          WorldState.bump, WorldState.emit]
        omega
      · simp [CloudFrontDistributionForS3, hr, distributionLoggingBucket,
          DefaultCloudFrontWebDistributionForS3Props,
          updateSecurityPolicy, newCloudFrontWebDistribution,
          newCfnOriginAccessIdentity, createCloudfrontLoggingBucket, newBucket]
      · intro pol hpolmem
        cases hpol : sourceBucket.policy with
        | none =>
            simp [CloudFrontDistributionForS3, hr, hpol,
              Bucket.addToResourcePolicy, Bucket.setPolicyMetadata,
              CfnOriginAccessIdentity.attrS3CanonicalUserId,
              newCfnOriginAccessIdentity, Bucket.arnForObjects,
              updateSecurityPolicy, newCloudFrontWebDistribution,
              createCloudfrontLoggingBucket, newBucket,
              DefaultCloudFrontWebDistributionForS3Props] at hpolmem
            subst hpolmem
            simp [Bucket.arnForObjects]
        | some oldPol =>
            simp [CloudFrontDistributionForS3, hr, hpol,
              Bucket.addToResourcePolicy, Bucket.setPolicyMetadata,
              CfnOriginAccessIdentity.attrS3CanonicalUserId,
              newCfnOriginAccessIdentity, Bucket.arnForObjects,
              updateSecurityPolicy, newCloudFrontWebDistribution,
              createCloudfrontLoggingBucket, newBucket,
              DefaultCloudFrontWebDistributionForS3Props] at hpolmem
            subst hpolmem
            simp [Bucket.arnForObjects, List.getLast?_concat]
      · cases hpol : sourceBucket.policy <;>
        simp [CloudFrontDistributionForS3, hr, hpol,
          Bucket.addToResourcePolicy, Bucket.setPolicyMetadata,
          newCfnOriginAccessIdentity, updateSecurityPolicy,
          newCloudFrontWebDistribution, createCloudfrontLoggingBucket,
          newBucket]
      · simp [appendsOnlyAfterDistribution, isCreateDistributionEvent,
          isAppendBucketPolicyEvent, isCreateLoggingBucketEvent,
          isCreateOriginAccessIdentityEvent]
      · simp [countEvents, isAppendBucketPolicyEvent]

/-- Claim C5, witness: the scenario at a concrete source bucket with id `0`
in a world whose next fresh id is `1`. -/
theorem c5_storage_scenario_witness :
    (s3DefaultRun bucketB JSVal.undefined w1).1.cfprops.originSource
      = some (OriginSource.s3OriginSource bucketB.bucketId
          (OriginAccessIdentity.fromOriginAccessIdentityName
            ("oai-" ++ toString w1.nextId))) ∧
    countEvents isCreateOriginAccessIdentityEvent
      (newEvents w1 (s3DefaultRun bucketB JSVal.undefined w1).2.2) = 1 ∧
    countEvents isCreateLoggingBucketEvent
      (newEvents w1 (s3DefaultRun bucketB JSVal.undefined w1).2.2) = 1 ∧
    (distributionLoggingBucket (s3DefaultRun bucketB JSVal.undefined
        w1).1).map Bucket.bucketId ≠ some bucketB.bucketId ∧
    (distributionLoggingBucket
      (s3DefaultRun bucketB JSVal.undefined w1).1).isSome = true ∧
    (∀ pol, (s3DefaultRun bucketB JSVal.undefined w1).2.1.policy = some pol →
      pol.statements.getLast? = some
        { actions := [("s3:GetObject")]
          resources := [bucketB.arnForObjects ("*")]
          principals := [Principal.canonicalUser
            ("canonical-user-" ++ toString w1.nextId)] } ∧
      pol.cfnOptions.metadata = some ({ rules_to_suppress :=
        [{ ruleId := "F16", reason := f16Reason }] })) ∧
    ((s3DefaultRun bucketB JSVal.undefined w1).2.1.policy).isSome = true ∧
    appendsOnlyAfterDistribution
      (newEvents w1 (s3DefaultRun bucketB JSVal.undefined w1).2.2) = true ∧
    countEvents isAppendBucketPolicyEvent
      (newEvents w1 (s3DefaultRun bucketB JSVal.undefined w1).2.2) = 1 :=
  c5_storage_scenario bucketB JSVal.undefined w1 (by decide)

/-! Claims C6 to C10. -/

/-- Claim C6: whatever the branches taken, the returned distribution's
synthesized resource carries exactly the single W70 transport-security-policy
suppression, and its justification is non-empty. -/
theorem c6_distribution_w70_suppression :
    (∀ (apiEndPoint : RestApi) (props : Option CloudFrontWebDistributionProps)
        (hsh : JSVal) (w : WorldState),
      (CloudFrontDistributionForApiGateway apiEndPoint props hsh
          w).1.defaultChild.cfnOptions.metadata
        = some ({ rules_to_suppress :=
            [{ ruleId := "W70", reason := w70Reason }] })) ∧
    (∀ (sourceBucket : Bucket) (props : Option CloudFrontWebDistributionProps)
        (hsh : JSVal) (w : WorldState),
      (CloudFrontDistributionForS3 sourceBucket props hsh
          w).1.defaultChild.cfnOptions.metadata
        = some ({ rules_to_suppress :=
            [{ ruleId := "W70", reason := w70Reason }] })) ∧
    w70Reason ≠ "" :=
  ⟨fun _ _ _ _ => rfl, fun _ _ _ _ => rfl, by decide⟩

/-- Claim C7: with header injection enabled (always in the API variant, the
default in the storage variant) exactly one edge function and exactly one
version are created, and the edge function's synthesized resource has no
environment block — the deletion override is applied for every environment
block the framework would synthesize, an empty one included. -/
theorem c7_edge_function_and_no_environment :
    (∀ w : WorldState,
      (defaultLambdaEdgeFunction w).1.resource.effectiveEnvironment = none) ∧
    (∀ (apiEndPoint : RestApi) (props : Option CloudFrontWebDistributionProps)
        (hsh : JSVal) (w : WorldState),
      countEvents isCreateLambdaFunctionEvent
        (newEvents w (CloudFrontDistributionForApiGateway apiEndPoint props hsh
          w).2) = 1 ∧
      countEvents isCreateLambdaVersionEvent
        (newEvents w (CloudFrontDistributionForApiGateway apiEndPoint props hsh
          w).2) = 1) ∧
    (∀ (sourceBucket : Bucket) (props : Option CloudFrontWebDistributionProps)
        (hsh : JSVal) (w : WorldState),
      resolveHttpSecurityHeadersS3 hsh = true →
      countEvents isCreateLambdaFunctionEvent
        (newEvents w (CloudFrontDistributionForS3 sourceBucket props hsh
          w).2.2) = 1 ∧
      countEvents isCreateLambdaVersionEvent
        (newEvents w (CloudFrontDistributionForS3 sourceBucket props hsh
          w).2.2) = 1) := by
  refine ⟨?_, ?_, ?_⟩
  · intro w
    simp [defaultLambdaEdgeFunction, deployLambdaFunction,
      LambdaFunction.addDeletionOverride, CfnFunction.effectiveEnvironment]
  · intro apiEndPoint props hsh w
    cases props with
    | none =>
        rw [newEvents_of_append _ _ _
          (api_trace_of_no_loggingConfig apiEndPoint none hsh w rfl)]
        constructor <;>
        simp [countEvents, isCreateLambdaFunctionEvent,
          isCreateLambdaVersionEvent]
    | some p =>
        cases hlc : p.loggingConfig with
        | none =>
            rw [newEvents_of_append _ _ _
              (api_trace_of_no_loggingConfig apiEndPoint (some p) hsh w
                (by simp [hlc]))]
            constructor <;>
            simp [countEvents, isCreateLambdaFunctionEvent,
              isCreateLambdaVersionEvent]
        | some lc =>
            rw [newEvents_of_append _ _ _
              (api_trace_of_loggingConfig apiEndPoint p lc hsh w hlc)]
            constructor <;>
            simp [countEvents, isCreateLambdaFunctionEvent,
              isCreateLambdaVersionEvent]
  · intro sourceBucket props hsh w hr
    cases props with
    | none =>
        rw [newEvents_of_append _ _ _
          (s3_trace_of_no_loggingConfig_enabled sourceBucket none hsh w hr
            rfl)]
        constructor <;>
        simp [countEvents, isCreateLambdaFunctionEvent,
          isCreateLambdaVersionEvent]
    | some p =>
        cases hlc : p.loggingConfig with
        | none =>
            rw [newEvents_of_append _ _ _
              (s3_trace_of_no_loggingConfig_enabled sourceBucket (some p) hsh w
                hr (by simp [hlc]))]
            constructor <;>
            simp [countEvents, isCreateLambdaFunctionEvent,
              isCreateLambdaVersionEvent]
        | some lc =>
            rw [newEvents_of_append _ _ _
              (s3_trace_of_loggingConfig_enabled sourceBucket p lc hsh w hr
                hlc)]
            constructor <;>
            simp [countEvents, isCreateLambdaFunctionEvent,
              isCreateLambdaVersionEvent]

/-- Claim C7, witness: the environment removal in a world where the framework
would synthesize an empty environment block, and the counts at a concrete
storage-variant invocation with the default header flag. -/
theorem c7_edge_function_and_no_environment_witness :
    (defaultLambdaEdgeFunction wEmptyEnv).1.resource.effectiveEnvironment
      = none ∧
    (countEvents isCreateLambdaFunctionEvent
      (newEvents w0 (CloudFrontDistributionForS3 bucketB none JSVal.undefined
        w0).2.2) = 1 ∧
     countEvents isCreateLambdaVersionEvent
      (newEvents w0 (CloudFrontDistributionForS3 bucketB none JSVal.undefined
        w0).2.2) = 1) :=
  ⟨c7_edge_function_and_no_environment.1 wEmptyEnv,
   c7_edge_function_and_no_environment.2.2 bucketB none JSVal.undefined w0 rfl⟩

/-- Claim C8: in the storage variant the strict comparison on line 173 makes
the boolean `false` — and only it — disable header injection: with `false`
zero edge functions are created and (absent a caller override of the list)
nothing is attached, while every other value, `undefined` and other falsy
values included, leaves header injection enabled. -/
theorem c8_s3_header_toggle :
    (∀ (sourceBucket : Bucket) (props : Option CloudFrontWebDistributionProps)
        (w : WorldState),
      countEvents isCreateLambdaFunctionEvent
        (newEvents w (CloudFrontDistributionForS3 sourceBucket props
          (JSVal.boolean false) w).2.2) = 0 ∧
      ((props.bind fun p => p.defaultBehaviorEdgeLambdas) = none →
        ((CloudFrontDistributionForS3 sourceBucket props (JSVal.boolean false)
            w).1.cfprops.defaultBehaviorEdgeLambdas.getD []) = [])) ∧
    (∀ (sourceBucket : Bucket) (props : Option CloudFrontWebDistributionProps)
        (hsh : JSVal) (w : WorldState), hsh ≠ JSVal.boolean false →
      countEvents isCreateLambdaFunctionEvent
        (newEvents w (CloudFrontDistributionForS3 sourceBucket props hsh
          w).2.2) = 1) := by
  constructor
  · intro sourceBucket props w
    have hr : resolveHttpSecurityHeadersS3 (JSVal.boolean false) = false := rfl
    constructor
    · cases props with
      | none =>
          rw [newEvents_of_append _ _ _
            (s3_trace_of_no_loggingConfig_disabled sourceBucket none
              (JSVal.boolean false) w hr rfl)]
          simp [countEvents, isCreateLambdaFunctionEvent]
      | some p =>
          cases hlc : p.loggingConfig with
          | none =>
              rw [newEvents_of_append _ _ _
                (s3_trace_of_no_loggingConfig_disabled sourceBucket (some p)
                  (JSVal.boolean false) w hr (by simp [hlc]))]
              simp [countEvents, isCreateLambdaFunctionEvent]
          | some lc =>
              rw [newEvents_of_append _ _ _
                (s3_trace_of_loggingConfig_disabled sourceBucket p lc
                  (JSVal.boolean false) w hr hlc)]
              simp [countEvents, isCreateLambdaFunctionEvent]
    · intro hov
      cases props with
      | none =>
          simp [CloudFrontDistributionForS3, hr,
            DefaultCloudFrontWebDistributionForS3Props,
            updateSecurityPolicy, newCloudFrontWebDistribution,
            newCfnOriginAccessIdentity, createCloudfrontLoggingBucket,
            newBucket]
      | some p =>
          simp only [Option.some_bind] at hov
          cases hlc : p.loggingConfig with
          | none =>
              simp [CloudFrontDistributionForS3, hr, hlc, hov, overrideProps,
                DefaultCloudFrontWebDistributionForS3Props,
                updateSecurityPolicy, newCloudFrontWebDistribution,
                newCfnOriginAccessIdentity, createCloudfrontLoggingBucket,
                newBucket]
          | some lc =>
              simp [CloudFrontDistributionForS3, hr, hlc, hov, overrideProps,
                DefaultCloudFrontWebDistributionForS3Props,
                updateSecurityPolicy, newCloudFrontWebDistribution,
                newCfnOriginAccessIdentity]
  · intro sourceBucket props hsh w hne
    have hr := resolveHttpSecurityHeadersS3_of_ne hsh hne
    cases props with
    | none =>
        rw [newEvents_of_append _ _ _
          (s3_trace_of_no_loggingConfig_enabled sourceBucket none hsh w hr
            rfl)]
        simp [countEvents, isCreateLambdaFunctionEvent]
    | some p =>
        cases hlc : p.loggingConfig with
        | none =>
            rw [newEvents_of_append _ _ _
              (s3_trace_of_no_loggingConfig_enabled sourceBucket (some p) hsh w
                hr (by simp [hlc]))]
            simp [countEvents, isCreateLambdaFunctionEvent]
        | some lc =>
            rw [newEvents_of_append _ _ _
              (s3_trace_of_loggingConfig_enabled sourceBucket p lc hsh w hr
                hlc)]
            simp [countEvents, isCreateLambdaFunctionEvent]

/-- Claim C8, witness: `false` disables (zero edge functions, nothing
attached) while the falsy non-boolean `0` leaves header injection enabled
(one edge function). -/
theorem c8_s3_header_toggle_witness :
    (countEvents isCreateLambdaFunctionEvent
      (newEvents w1 (CloudFrontDistributionForS3 bucketB none
        (JSVal.boolean false) w1).2.2) = 0 ∧
     ((CloudFrontDistributionForS3 bucketB none (JSVal.boolean false)
        w1).1.cfprops.defaultBehaviorEdgeLambdas.getD []) = []) ∧
    countEvents isCreateLambdaFunctionEvent
      (newEvents w1 (CloudFrontDistributionForS3 bucketB none
        (JSVal.number 0) w1).2.2) = 1 :=
  ⟨⟨(c8_s3_header_toggle.1 bucketB none w1).1,
    (c8_s3_header_toggle.1 bucketB none w1).2 rfl⟩,
   c8_s3_header_toggle.2 bucketB none (JSVal.number 0) w1 (by decide)⟩

/-- Claim C9: when the caller's configuration carries a `loggingConfig` with
a bucket, neither entry point creates a logging bucket, and the final merged
configuration's access-log destination is the caller-supplied bucket. -/
theorem c9_caller_logging_destination :
    (∀ (apiEndPoint : RestApi) (p : CloudFrontWebDistributionProps)
        (lc : LoggingConfig) (m : Bucket) (hsh : JSVal) (w : WorldState),
      p.loggingConfig = some lc → lc.bucket = some m →
      countEvents isCreateLoggingBucketEvent
        (newEvents w (CloudFrontDistributionForApiGateway apiEndPoint (some p)
          hsh w).2) = 0 ∧
      distributionLoggingBucket
        (CloudFrontDistributionForApiGateway apiEndPoint (some p) hsh w).1
        = some m) ∧
    (∀ (sourceBucket : Bucket) (p : CloudFrontWebDistributionProps)
        (lc : LoggingConfig) (m : Bucket) (hsh : JSVal) (w : WorldState),
      p.loggingConfig = some lc → lc.bucket = some m →
      countEvents isCreateLoggingBucketEvent
        (newEvents w (CloudFrontDistributionForS3 sourceBucket (some p) hsh
          w).2.2) = 0 ∧
      distributionLoggingBucket
        (CloudFrontDistributionForS3 sourceBucket (some p) hsh w).1
        = some m) := by
  constructor
  · intro apiEndPoint p lc m hsh w hp hb
    have htruthy := resolveHttpSecurityHeadersApi_truthy hsh
    constructor
    · rw [newEvents_of_append _ _ _
        (api_trace_of_loggingConfig apiEndPoint p lc hsh w hp)]
      simp [countEvents, isCreateLoggingBucketEvent]
    · simp [CloudFrontDistributionForApiGateway, htruthy, hp, hb,
        distributionLoggingBucket, overrideProps,
        DefaultCloudFrontWebDistributionForApiGatewayProps,
        updateSecurityPolicy, newCloudFrontWebDistribution,
        defaultLambdaEdgeFunction, deployLambdaFunction, newLambdaVersion]
  · intro sourceBucket p lc m hsh w hp hb
    cases hr : resolveHttpSecurityHeadersS3 hsh with
    | true =>
        constructor
        · rw [newEvents_of_append _ _ _
            (s3_trace_of_loggingConfig_enabled sourceBucket p lc hsh w hr hp)]
          simp [countEvents, isCreateLoggingBucketEvent]
        · simp [CloudFrontDistributionForS3, hr, hp, hb,
            distributionLoggingBucket, overrideProps,
            DefaultCloudFrontWebDistributionForS3Props,
            updateSecurityPolicy, newCloudFrontWebDistribution,
            newCfnOriginAccessIdentity, defaultLambdaEdgeFunction,
            deployLambdaFunction, newLambdaVersion]
    | false =>
        constructor
        · rw [newEvents_of_append _ _ _
            (s3_trace_of_loggingConfig_disabled sourceBucket p lc hsh w hr hp)]
          simp [countEvents, isCreateLoggingBucketEvent]
        · simp [CloudFrontDistributionForS3, hr, hp, hb,
            distributionLoggingBucket, overrideProps,
            DefaultCloudFrontWebDistributionForS3Props,
            updateSecurityPolicy, newCloudFrontWebDistribution,
            newCfnOriginAccessIdentity]

/-- Claim C9, witness: both entry points with a caller configuration naming
`bucketM` as the access-log destination. -/
theorem c9_caller_logging_destination_witness :
    (countEvents isCreateLoggingBucketEvent
      (newEvents w0 (CloudFrontDistributionForApiGateway restApiE
        (some propsWithLoggingBucketM) JSVal.undefined w0).2) = 0 ∧
     distributionLoggingBucket
       (CloudFrontDistributionForApiGateway restApiE
         (some propsWithLoggingBucketM) JSVal.undefined w0).1
       = some bucketM) ∧
    (countEvents isCreateLoggingBucketEvent
      (newEvents w0 (CloudFrontDistributionForS3 bucketB
        (some propsWithLoggingBucketM) JSVal.undefined w0).2.2) = 0 ∧
     distributionLoggingBucket
       (CloudFrontDistributionForS3 bucketB
         (some propsWithLoggingBucketM) JSVal.undefined w0).1
       = some bucketM) :=
  ⟨c9_caller_logging_destination.1 restApiE propsWithLoggingBucketM
     { bucket := some bucketM, includeCookies := none } bucketM
     JSVal.undefined w0 rfl rfl,
   c9_caller_logging_destination.2 bucketB propsWithLoggingBucketM
     { bucket := some bucketM, includeCookies := none } bucketM
     JSVal.undefined w0 rfl rfl⟩

/-- Claim C10: `updateSecurityPolicy` hands back the distribution it was
given with the synthesized resource's metadata replaced wholesale — whatever
metadata was there before — by the single W70 suppression, and with every
other field (identity, configuration, synthesized configuration, the other
resource options) unchanged. -/
theorem c10_updateSecurityPolicy_frame (d : CloudFrontWebDistribution) :
    (updateSecurityPolicy d).distId = d.distId ∧
    (updateSecurityPolicy d).cfprops = d.cfprops ∧
    (updateSecurityPolicy d).defaultChild.distributionConfig
      = d.defaultChild.distributionConfig ∧
    (updateSecurityPolicy d).defaultChild.cfnOptions.condition
      = d.defaultChild.cfnOptions.condition ∧
    (updateSecurityPolicy d).defaultChild.cfnOptions.metadata
      = some ({ rules_to_suppress :=
          [{ ruleId := "W70", reason := w70Reason }] }) :=
  ⟨rfl, rfl, rfl, rfl, rfl⟩

end CfHelper
